import Mathlib

/-!
Verification of the Game Ledger Service (`src/server.js`), a clicker-game
backend: Express route handlers over an in-memory SQLite store with tables
`users`, `boosts` and `logs`.

Shallow embedding choices:
* The store is a `Store` structure: a list of `users` rows, a list of
  `boosts` rows and the next AUTOINCREMENT id for `boosts`.  `logs` is never
  written or read by any handler and is omitted.
* Each route handler becomes a pure function from the store (plus the
  current time where the handler reads the clock) and the request-body
  fields to an HTTP status code, the response payload where relevant, and
  the new store.
* Body fields are `Option`-typed: `none` is an absent JSON field.
  JavaScript truthiness on the fields the handlers check is: a string is
  falsy iff absent or `""`; a number is falsy iff absent or `0`.
* Timestamps are epoch milliseconds (`Int`).  `new Date(t).toISOString()`
  yields strings whose lexicographic order agrees with the numeric order of
  `t` (fixed-width zero-padded format), so SQLite's string comparison
  `active_until > now` is faithfully modelled by integer comparison.
* SQL `UPDATE ... WHERE id = ?` is a map over the rows touching only the
  matching ones; `SELECT ... WHERE id = ? LIMIT 1`-style reads are
  `List.find?`.
-/

/-- A row of the `users` table: `id TEXT PRIMARY KEY, username TEXT,
total_clicks INTEGER DEFAULT 0, total_tokens INTEGER DEFAULT 0`. -/
structure UserRow where
  id : String
  username : Option String
  total_clicks : Int
  total_tokens : Int
deriving Repr, DecidableEq

/-- A row of the `boosts` table: `id INTEGER PRIMARY KEY AUTOINCREMENT,
user_id TEXT, boost_type TEXT, active_until TIMESTAMP` (stored as an
ISO-8601 string, modelled as epoch milliseconds). -/
structure BoostRow where
  id : Nat
  user_id : String
  boost_type : String
  active_until : Int
deriving Repr, DecidableEq

/-- The in-memory SQLite database. -/
structure Store where
  users : List UserRow
  boosts : List BoostRow
  nextBoostId : Nat
deriving Repr, DecidableEq

/-- The freshly created database: empty tables, first AUTOINCREMENT id 1. -/
def Store.empty : Store := { users := [], boosts := [], nextBoostId := 1 }

/-- JavaScript truthiness of an optional string field (`!userId`-style
checks): falsy iff absent or the empty string. -/
def truthyStr : Option String → Bool
  | none => false
  | some s => !(s == "")

/-- JavaScript truthiness of an optional numeric field (`!clickReward`-style
checks): falsy iff absent or zero. -/
def truthyInt : Option Int → Bool
  | none => false
  | some n => !(n == 0)

/-- `SELECT ... FROM users WHERE id = ?`: first row with the given id. -/
def findUser (st : Store) (uid : String) : Option UserRow :=
  st.users.find? (fun u => u.id == uid)

/-- `username || null` in the register handler: an absent or empty-string
username is stored as NULL. -/
def normUsername : Option String → Option String
  | none => none
  | some s => if s == "" then none else some s

/-- `INSERT INTO users (id, username) VALUES (?, ?) ON CONFLICT(id) DO
UPDATE SET username = excluded.username`: if a row with this id exists,
overwrite only its `username`; otherwise insert a new row with the column
defaults `total_clicks = 0`, `total_tokens = 0`. -/
def upsertUser (l : List UserRow) (uid : String) (uname : Option String) : List UserRow :=
  if l.any (fun u => u.id == uid) then
    l.map (fun u => if u.id == uid then { u with username := uname } else u)
  else
    l ++ [{ id := uid, username := uname, total_clicks := 0, total_tokens := 0 }]

/-- `POST /api/register` (src/server.js:63-80). -/
def register (st : Store) (userId username : Option String) : Nat × Store :=
  match userId with
  | none => (400, st)
  | some uid =>
    if uid == "" then (400, st)
    else (200, { st with users := upsertUser st.users uid (normUsername username) })

/-- `POST /api/click` (src/server.js:83-102): one
`UPDATE users SET total_clicks = total_clicks + 1,
total_tokens = total_tokens + ? WHERE id = ?`, no existence check. -/
def click (st : Store) (userId : Option String) (clickReward : Option Int) : Nat × Store :=
  match userId, clickReward with
  | some uid, some r =>
    if uid == "" || r == 0 then (400, st)
    else
      (200, { st with users := st.users.map (fun u =>
        if u.id == uid then
          { u with total_clicks := u.total_clicks + 1, total_tokens := u.total_tokens + r }
        else u) })
  | _, _ => (400, st)

/-- `POST /api/claim-tokens` (src/server.js:105-136): read `total_tokens`,
reject 400 if no row or `row.total_tokens < tokens`, else
`UPDATE users SET total_tokens = total_tokens - ? WHERE id = ?`. -/
def claimTokens (st : Store) (userId : Option String) (tokens : Option Int) : Nat × Store :=
  match userId, tokens with
  | some uid, some t =>
    if uid == "" || t == 0 then (400, st)
    else
      match findUser st uid with
      | none => (400, st)
      | some row =>
        if row.total_tokens < t then (400, st)
        else
          (200, { st with users := st.users.map (fun u =>
            if u.id == uid then { u with total_tokens := u.total_tokens - t } else u) })
  | _, _ => (400, st)

/-- `POST /api/buy-boost` (src/server.js:139-185): read `total_tokens`,
reject 400 if no row or `row.total_tokens < price`; otherwise compute
`activeUntil = Date.now() + duration * 60 * 60 * 1000`, deduct `price`,
and insert one boost row.  Returns (status, activeUntil payload, store). -/
def buyBoost (st : Store) (now : Int) (userId boostType : Option String)
    (price duration : Option Int) : Nat × Option Int × Store :=
  match userId, boostType, price, duration with
  | some uid, some bt, some p, some d =>
    if uid == "" || bt == "" || p == 0 || d == 0 then (400, none, st)
    else
      match findUser st uid with
      | none => (400, none, st)
      | some row =>
        if row.total_tokens < p then (400, none, st)
        else
          let activeUntil := now + d * 60 * 60 * 1000
          (200, some activeUntil,
            { users := st.users.map (fun u =>
                if u.id == uid then { u with total_tokens := u.total_tokens - p } else u),
              boosts := st.boosts ++ [{ id := st.nextBoostId, user_id := uid,
                                        boost_type := bt, active_until := activeUntil }],
              nextBoostId := st.nextBoostId + 1 })
  | _, _, _, _ => (400, none, st)

/-- One step of scanning for the row with the largest `active_until`,
keeping the earlier row on ties (SQLite's stable row order). -/
def latestStep (acc : Option BoostRow) (b : BoostRow) : Option BoostRow :=
  match acc with
  | none => some b
  | some a => if a.active_until < b.active_until then some b else acc

/-- The query of `GET /api/active-boost/:userId`:
`SELECT boost_type, active_until FROM boosts WHERE user_id = ? AND
active_until > ? ORDER BY active_until DESC LIMIT 1`, ties broken by row
order (insertion order). -/
def activeBoostQuery (st : Store) (now : Int) (uid : String) : Option BoostRow :=
  (st.boosts.filter (fun b => b.user_id == uid && now < b.active_until)).foldl latestStep none

/-- `GET /api/active-boost/:userId` (src/server.js:188-207): 404 when the
query finds no row, else 200 with `{boost_type, active_until}`. -/
def activeBoostHandler (st : Store) (now : Int) (uid : String) : Nat × Option (String × Int) :=
  match activeBoostQuery st now uid with
  | none => (404, none)
  | some b => (200, some (b.boost_type, b.active_until))

/-- `GET /api/user/:userId` (src/server.js:210-226): 404 when no row, else
200 with `{id, username, total_clicks, total_tokens}`. -/
def getUserHandler (st : Store) (uid : String) : Nat × Option UserRow :=
  match findUser st uid with
  | none => (404, none)
  | some u => (200, some u)

/-- A sample user row for concrete evaluations. -/
def demoRow : UserRow := { id := "u1", username := some "alice", total_clicks := 2, total_tokens := 7 }

/-- A sample store: one user, one expired and one unexpired boost. -/
def demoStore : Store :=
  { users := [demoRow],
    boosts := [{ id := 1, user_id := "u1", boost_type := "gold", active_until := 50 },
               { id := 2, user_id := "u1", boost_type := "silver", active_until := 100 }],
    nextBoostId := 3 }

/-! ### Helper lemmas about the `UPDATE ... WHERE id = ?` row-map pattern -/

/-- Updating the rows matching `uid` with an id-preserving `g` commutes with
looking up the first row matching `uid`. -/
theorem find?_map_update (l : List UserRow) (uid : String) (g : UserRow → UserRow)
    (hg : ∀ u, (g u).id = u.id) :
    (l.map (fun u => if u.id == uid then g u else u)).find? (fun u => u.id == uid)
      = (l.find? (fun u => u.id == uid)).map g := by
  induction l with
  | nil => rfl
  | cons a l ih =>
    rw [List.map_cons, List.find?_cons, List.find?_cons]
    by_cases h : (a.id == uid) = true
    · rw [if_pos h]
      have hg' : ((g a).id == uid) = true := by rw [hg]; exact h
      rw [hg', h]
      rfl
    · have h' : (a.id == uid) = false := Bool.not_eq_true _ ▸ h
      rw [if_neg h, h']
      exact ih

/-- When no row matches `uid`, the `UPDATE` touches nothing. -/
theorem map_update_of_none (l : List UserRow) (uid : String) (g : UserRow → UserRow)
    (h : l.find? (fun u => u.id == uid) = none) :
    l.map (fun u => if u.id == uid then g u else u) = l := by
  have h' := List.find?_eq_none.mp h
  calc l.map (fun u => if u.id == uid then g u else u) = l.map id := by
        apply List.map_congr_left
        intro a ha
        have : ¬((a.id == uid) = true) := h' a ha
        simp [this]
    _ = l := List.map_id l

/-- Rows not matching `uid` survive the `UPDATE` unchanged. -/
theorem mem_map_update (l : List UserRow) (uid : String) (g : UserRow → UserRow)
    (w : UserRow) (hw : w ∈ l) (hne : w.id ≠ uid) :
    w ∈ l.map (fun u => if u.id == uid then g u else u) := by
  exact List.mem_map.mpr ⟨w, hw, by simp [hne]⟩

/-- A nonempty string is truthy, i.e. its `==` test against `""` is `false`. -/
theorem beq_empty_false (s : String) (h : s ≠ "") : (s == "") = false := by
  simp [h]

/-- A nonzero integer is truthy, i.e. its `==` test against `0` is `false`. -/
theorem beq_zero_false (t : Int) (h : t ≠ 0) : (t == 0) = false := by
  simp [h]

/-! ### Claim theorems -/

/-- C1: registering an already-present `userId` again with a different
username responds 200 and updates only the `username` field of that row;
`total_clicks`/`total_tokens` are untouched, no second row is created,
other rows survive unchanged, and the boosts table is untouched. -/
theorem register_existing_updates_only_username
    (st : Store) (uid v : String) (u : UserRow)
    (huid : uid ≠ "") (hv : v ≠ "")
    (hfind : findUser st uid = some u) :
    (register st (some uid) (some v)).1 = 200 ∧
    findUser (register st (some uid) (some v)).2 uid = some { u with username := some v } ∧
    ((register st (some uid) (some v)).2).users.length = st.users.length ∧
    (∀ w ∈ st.users, w.id ≠ uid → w ∈ ((register st (some uid) (some v)).2).users) ∧
    ((register st (some uid) (some v)).2).boosts = st.boosts := by
  have hbeq := beq_empty_false uid huid
  have hfind' : st.users.find? (fun w => w.id == uid) = some u := hfind
  have hpu := List.find?_some hfind'
  have hany : st.users.any (fun w => w.id == uid) = true :=
    List.any_eq_true.mpr ⟨u, List.mem_of_find?_eq_some hfind', hpu⟩
  have hnorm : normUsername (some v) = some v := by
    simp [normUsername, hv]
  have hreg : register st (some uid) (some v)
      = (200, { st with users := upsertUser st.users uid (some v) }) := by
    simp only [register, hbeq, Bool.false_eq_true, if_false, hnorm]
  have husers : (register st (some uid) (some v)).2.users
      = st.users.map (fun w => if w.id == uid then { w with username := some v } else w) := by
    rw [hreg]
    show upsertUser st.users uid (some v) = _
    unfold upsertUser
    rw [if_pos hany]
  refine ⟨by rw [hreg], ?_, ?_, ?_, by rw [hreg]⟩
  · show ((register st (some uid) (some v)).2.users).find? (fun w => w.id == uid) = _
    rw [husers, find?_map_update st.users uid (fun w => { w with username := some v })
      (fun w => rfl), hfind']
    rfl
  · rw [husers, List.length_map]
  · intro w hw hne
    rw [husers]
    exact mem_map_update st.users uid (fun w => { w with username := some v }) w hw hne

/-- C9: registering an existing `userId` with the `username` field omitted
(or the falsy `""`) overwrites the stored username with NULL — the previous
username is not preserved. -/
theorem register_falsy_username_overwrites_with_null
    (st : Store) (uid : String) (u : UserRow) (un : Option String)
    (huid : uid ≠ "") (hun : un = none ∨ un = some "")
    (hfind : findUser st uid = some u) :
    (register st (some uid) un).1 = 200 ∧
    findUser (register st (some uid) un).2 uid = some { u with username := none } := by
  have hbeq := beq_empty_false uid huid
  have hfind' : st.users.find? (fun w => w.id == uid) = some u := hfind
  have hpu := List.find?_some hfind'
  have hany : st.users.any (fun w => w.id == uid) = true :=
    List.any_eq_true.mpr ⟨u, List.mem_of_find?_eq_some hfind', hpu⟩
  have hnorm : normUsername un = none := by
    rcases hun with h | h <;> simp [h, normUsername]
  have hreg : register st (some uid) un
      = (200, { st with users := upsertUser st.users uid none }) := by
    simp only [register, hbeq, Bool.false_eq_true, if_false, hnorm]
  have husers : (register st (some uid) un).2.users
      = st.users.map (fun w => if w.id == uid then { w with username := none } else w) := by
    rw [hreg]
    show upsertUser st.users uid none = _
    unfold upsertUser
    rw [if_pos hany]
  refine ⟨by rw [hreg], ?_⟩
  show ((register st (some uid) un).2.users).find? (fun w => w.id == uid) = _
  rw [husers, find?_map_update st.users uid (fun w => { w with username := none })
    (fun w => rfl), hfind']
  rfl

/-- C2: with a truthy reward `r`, click responds 200 and performs the single
`UPDATE`: the matching row gets `total_clicks + 1` and `total_tokens + r`
(no new row); when no row matches `userId`, the store is left completely
unchanged and the call still responds 200. -/
theorem click_adds_reward_no_existence_check
    (st : Store) (uid : String) (r : Int)
    (huid : uid ≠ "") (hr : r ≠ 0) :
    (click st (some uid) (some r)).1 = 200 ∧
    (∀ u, findUser st uid = some u →
      findUser (click st (some uid) (some r)).2 uid =
        some { u with total_clicks := u.total_clicks + 1, total_tokens := u.total_tokens + r } ∧
      ((click st (some uid) (some r)).2).users.length = st.users.length) ∧
    (findUser st uid = none → (click st (some uid) (some r)).2 = st) := by
  have hbequ := beq_empty_false uid huid
  have hbeqr := beq_zero_false r hr
  have hclick : click st (some uid) (some r)
      = (200, { st with users := st.users.map (fun w =>
          if w.id == uid then
            { w with total_clicks := w.total_clicks + 1, total_tokens := w.total_tokens + r }
          else w) }) := by
    simp only [click, hbequ, hbeqr, Bool.or_self, Bool.false_eq_true, if_false]
  have husers : (click st (some uid) (some r)).2.users
      = st.users.map (fun w =>
          if w.id == uid then
            { w with total_clicks := w.total_clicks + 1, total_tokens := w.total_tokens + r }
          else w) := by
    rw [hclick]
  refine ⟨by rw [hclick], ?_, ?_⟩
  · intro u hu
    have hfind' : st.users.find? (fun w => w.id == uid) = some u := hu
    constructor
    · show ((click st (some uid) (some r)).2).users.find? (fun w => w.id == uid) = _
      rw [husers, find?_map_update st.users uid
        (fun w => { w with total_clicks := w.total_clicks + 1,
                           total_tokens := w.total_tokens + r })
        (fun w => rfl), hfind']
      rfl
    · rw [husers, List.length_map]
  · intro hnone
    have hnone' : st.users.find? (fun w => w.id == uid) = none := hnone
    rw [hclick]
    show ({ st with users := st.users.map _ } : Store) = st
    rw [map_update_of_none st.users uid _ hnone']

/-- C3: with truthy fields, claim-tokens rejects with 400 and an unchanged
store when the user has no row or the stored balance is strictly below the
request; when the balance is at least the request it responds 200 and
issues the subtracting `UPDATE` (claiming exactly the full balance leaves
balance 0). -/
theorem claimTokens_balance_check
    (st : Store) (uid : String) (t : Int)
    (huid : uid ≠ "") (ht : t ≠ 0) :
    (findUser st uid = none → claimTokens st (some uid) (some t) = (400, st)) ∧
    (∀ u, findUser st uid = some u →
      (u.total_tokens < t → claimTokens st (some uid) (some t) = (400, st)) ∧
      (t ≤ u.total_tokens →
        (claimTokens st (some uid) (some t)).1 = 200 ∧
        findUser (claimTokens st (some uid) (some t)).2 uid =
          some { u with total_tokens := u.total_tokens - t }) ∧
      (t = u.total_tokens →
        findUser (claimTokens st (some uid) (some t)).2 uid =
          some { u with total_tokens := 0 })) := by
  have hbequ := beq_empty_false uid huid
  have hbeqt := beq_zero_false t ht
  constructor
  · intro hnone
    simp only [claimTokens, hbequ, hbeqt, Bool.or_self, Bool.false_eq_true, if_false, hnone]
  · intro u hu
    have hfind' : st.users.find? (fun w => w.id == uid) = some u := hu
    have hsucc : ¬u.total_tokens < t →
        claimTokens st (some uid) (some t)
          = (200, { st with users := st.users.map (fun w =>
              if w.id == uid then { w with total_tokens := w.total_tokens - t } else w) }) := by
      intro hge
      simp only [claimTokens, hbequ, hbeqt, Bool.or_self, Bool.false_eq_true, if_false, hu,
        if_neg hge]
    have hfound : t ≤ u.total_tokens →
        findUser (claimTokens st (some uid) (some t)).2 uid =
          some { u with total_tokens := u.total_tokens - t } := by
      intro hle
      have hge := not_lt.mpr hle
      show ((claimTokens st (some uid) (some t)).2).users.find? (fun w => w.id == uid) = _
      rw [hsucc hge]
      show (st.users.map _).find? _ = _
      rw [find?_map_update st.users uid
        (fun w => { w with total_tokens := w.total_tokens - t }) (fun w => rfl), hfind']
      rfl
    refine ⟨?_, fun hle => ⟨?_, hfound hle⟩, ?_⟩
    · intro hlt
      simp only [claimTokens, hbequ, hbeqt, Bool.or_self, Bool.false_eq_true, if_false, hu,
        if_pos hlt]
    · rw [hsucc (not_lt.mpr hle)]
    · intro heq
      have hle : t ≤ u.total_tokens := le_of_eq heq
      rw [hfound hle, heq, sub_self]

/-- C10: a negative `tokens` passes both the truthiness check and the
balance check of claim-tokens, so the subtraction strictly increases the
balance (by `|tokens|`); likewise click accepts a negative `clickReward`
and strictly decreases the balance — non-negativity of `total_tokens` is
not an invariant even sequentially. -/
theorem negative_amounts_break_balance_invariant
    (st : Store) (uid : String) (t r : Int) (u : UserRow)
    (huid : uid ≠ "") (ht : t < 0) (hr : r < 0)
    (hfind : findUser st uid = some u) (hnn : 0 ≤ u.total_tokens) :
    ((claimTokens st (some uid) (some t)).1 = 200 ∧
      findUser (claimTokens st (some uid) (some t)).2 uid =
        some { u with total_tokens := u.total_tokens + (-t) } ∧
      u.total_tokens < u.total_tokens + (-t)) ∧
    ((click st (some uid) (some r)).1 = 200 ∧
      findUser (click st (some uid) (some r)).2 uid =
        some { u with total_clicks := u.total_clicks + 1,
                      total_tokens := u.total_tokens + r } ∧
      u.total_tokens + r < u.total_tokens) := by
  have hbequ := beq_empty_false uid huid
  have hbeqt := beq_zero_false t (ne_of_lt ht)
  have hbeqr := beq_zero_false r (ne_of_lt hr)
  have hfind' : st.users.find? (fun w => w.id == uid) = some u := hfind
  have hnlt : ¬u.total_tokens < t := not_lt.mpr (le_of_lt (lt_of_lt_of_le ht hnn))
  have hclaim : claimTokens st (some uid) (some t)
      = (200, { st with users := st.users.map (fun w =>
          if w.id == uid then { w with total_tokens := w.total_tokens - t } else w) }) := by
    simp only [claimTokens, hbequ, hbeqt, Bool.or_self, Bool.false_eq_true, if_false, hfind,
      if_neg hnlt]
  have hclick : click st (some uid) (some r)
      = (200, { st with users := st.users.map (fun w =>
          if w.id == uid then
            { w with total_clicks := w.total_clicks + 1, total_tokens := w.total_tokens + r }
          else w) }) := by
    simp only [click, hbequ, hbeqr, Bool.or_self, Bool.false_eq_true, if_false]
  refine ⟨⟨by rw [hclaim], ?_, by omega⟩, by rw [hclick], ?_, by omega⟩
  · show ((claimTokens st (some uid) (some t)).2).users.find? (fun w => w.id == uid) = _
    rw [hclaim]
    show (st.users.map _).find? _ = _
    rw [find?_map_update st.users uid
      (fun w => { w with total_tokens := w.total_tokens - t }) (fun w => rfl), hfind']
    have : u.total_tokens - t = u.total_tokens + -t := sub_eq_add_neg _ _
    simp only [Option.map_some', this]
  · show ((click st (some uid) (some r)).2).users.find? (fun w => w.id == uid) = _
    rw [hclick]
    show (st.users.map _).find? _ = _
    rw [find?_map_update st.users uid
      (fun w => { w with total_clicks := w.total_clicks + 1,
                         total_tokens := w.total_tokens + r }) (fun w => rfl), hfind']
    rfl

/-- C5: when the stored balance covers `price`, buy-boost responds 200,
reports `activeUntil = now + duration * 3600000` (duration in hours to
milliseconds), deducts exactly `price` from the row, and appends exactly
one boost row carrying that `activeUntil`. -/
theorem buyBoost_deducts_price_and_inserts_one_boost
    (st : Store) (now : Int) (uid bt : String) (p d : Int) (u : UserRow)
    (huid : uid ≠ "") (hbt : bt ≠ "") (hp : p ≠ 0) (hd : d ≠ 0)
    (hfind : findUser st uid = some u) (hbal : p ≤ u.total_tokens) :
    (buyBoost st now (some uid) (some bt) (some p) (some d)).1 = 200 ∧
    (buyBoost st now (some uid) (some bt) (some p) (some d)).2.1 = some (now + d * 3600000) ∧
    findUser ((buyBoost st now (some uid) (some bt) (some p) (some d)).2.2) uid =
      some { u with total_tokens := u.total_tokens - p } ∧
    ((buyBoost st now (some uid) (some bt) (some p) (some d)).2.2).boosts =
      st.boosts ++ [{ id := st.nextBoostId, user_id := uid, boost_type := bt,
                      active_until := now + d * 3600000 }] := by
  have hbequ := beq_empty_false uid huid
  have hbeqbt := beq_empty_false bt hbt
  have hbeqp := beq_zero_false p hp
  have hbeqd := beq_zero_false d hd
  have hfind' : st.users.find? (fun w => w.id == uid) = some u := hfind
  have hnlt : ¬u.total_tokens < p := not_lt.mpr hbal
  have hms : now + d * 60 * 60 * 1000 = now + d * 3600000 := by ring
  have hbuy : buyBoost st now (some uid) (some bt) (some p) (some d)
      = (200, some (now + d * 3600000),
          { users := st.users.map (fun w =>
              if w.id == uid then { w with total_tokens := w.total_tokens - p } else w),
            boosts := st.boosts ++ [{ id := st.nextBoostId, user_id := uid,
                                      boost_type := bt,
                                      active_until := now + d * 3600000 }],
            nextBoostId := st.nextBoostId + 1 }) := by
    simp only [buyBoost, hbequ, hbeqbt, hbeqp, hbeqd, Bool.or_self, Bool.false_eq_true,
      if_false, hfind, if_neg hnlt, hms]
  refine ⟨by rw [hbuy], by rw [hbuy], ?_, by rw [hbuy]⟩
  show ((buyBoost st now (some uid) (some bt) (some p) (some d)).2.2).users.find?
    (fun w => w.id == uid) = _
  rw [hbuy]
  show (st.users.map _).find? _ = _
  rw [find?_map_update st.users uid
    (fun w => { w with total_tokens := w.total_tokens - p }) (fun w => rfl), hfind']
  rfl

/-- C6: whenever a required field of click, claim-tokens, or buy-boost is
falsy — absent, an empty string, or the number 0 — the handler answers 400
and the store is returned unchanged (no query is issued). -/
theorem falsy_required_fields_rejected_with_400
    (st : Store) (now : Int) (uid bt : Option String) (r t p d : Option Int) :
    ((truthyStr uid = false ∨ truthyInt r = false) → click st uid r = (400, st)) ∧
    ((truthyStr uid = false ∨ truthyInt t = false) → claimTokens st uid t = (400, st)) ∧
    ((truthyStr uid = false ∨ truthyStr bt = false ∨ truthyInt p = false ∨
        truthyInt d = false) →
      buyBoost st now uid bt p d = (400, none, st)) := by
  refine ⟨?_, ?_, ?_⟩
  · intro h
    match uid, r with
    | none, none => rfl
    | none, some _ => rfl
    | some _, none => rfl
    | some s, some n =>
      rcases h with h | h
      · simp only [truthyStr, Bool.not_eq_false'] at h
        simp [click, h]
      · simp only [truthyInt, Bool.not_eq_false'] at h
        simp [click, h]
  · intro h
    match uid, t with
    | none, none => rfl
    | none, some _ => rfl
    | some _, none => rfl
    | some s, some n =>
      rcases h with h | h
      · simp only [truthyStr, Bool.not_eq_false'] at h
        simp [claimTokens, h]
      · simp only [truthyInt, Bool.not_eq_false'] at h
        simp [claimTokens, h]
  · intro h
    match uid, bt, p, d with
    | none, _, _, _ => cases bt <;> cases p <;> cases d <;> rfl
    | some _, none, _, _ => cases p <;> cases d <;> rfl
    | some _, some _, none, _ => cases d <;> rfl
    | some _, some _, some _, none => rfl
    | some s, some b, some pp, some dd =>
      rcases h with h | h | h | h
      · simp only [truthyStr, Bool.not_eq_false'] at h
        simp [buyBoost, h]
      · simp only [truthyStr, Bool.not_eq_false'] at h
        simp [buyBoost, h]
      · simp only [truthyInt, Bool.not_eq_false'] at h
        simp [buyBoost, h]
      · simp only [truthyInt, Bool.not_eq_false'] at h
        simp [buyBoost, h]

/-- C4: the concrete scenario from the spec — from an empty store, register
`u1`, click three times with reward 5 (clicks 3, tokens 15), then claim 10
(200, balance 5), then claim 10 again (400, balance still 5). -/
theorem scenario_register_three_clicks_two_claims :
    (register Store.empty (some "u1") none).1 = 200 ∧
    findUser ((click ((click ((click ((register Store.empty (some "u1") none).2)
        (some "u1") (some 5)).2) (some "u1") (some 5)).2) (some "u1") (some 5)).2) "u1"
      = some { id := "u1", username := none, total_clicks := 3, total_tokens := 15 } ∧
    (claimTokens ((click ((click ((click ((register Store.empty (some "u1") none).2)
        (some "u1") (some 5)).2) (some "u1") (some 5)).2) (some "u1") (some 5)).2)
        (some "u1") (some 10)).1 = 200 ∧
    findUser (claimTokens ((click ((click ((click ((register Store.empty (some "u1") none).2)
        (some "u1") (some 5)).2) (some "u1") (some 5)).2) (some "u1") (some 5)).2)
        (some "u1") (some 10)).2 "u1"
      = some { id := "u1", username := none, total_clicks := 3, total_tokens := 5 } ∧
    (claimTokens (claimTokens ((click ((click ((click ((register Store.empty
        (some "u1") none).2) (some "u1") (some 5)).2) (some "u1") (some 5)).2)
        (some "u1") (some 5)).2) (some "u1") (some 10)).2 (some "u1") (some 10)).1 = 400 ∧
    findUser (claimTokens (claimTokens ((click ((click ((click ((register Store.empty
        (some "u1") none).2) (some "u1") (some 5)).2) (some "u1") (some 5)).2)
        (some "u1") (some 5)).2) (some "u1") (some 10)).2 (some "u1") (some 10)).2 "u1"
      = some { id := "u1", username := none, total_clicks := 3, total_tokens := 5 } := by
  decide

/-- Folding `latestStep` from `some a` yields a row of `a :: l` whose
`active_until` dominates `a` and every element of `l`. -/
theorem latestStep_foldl_some (l : List BoostRow) :
    ∀ a : BoostRow, ∃ m, l.foldl latestStep (some a) = some m ∧
      (m = a ∨ m ∈ l) ∧ a.active_until ≤ m.active_until ∧
      ∀ c ∈ l, c.active_until ≤ m.active_until := by
  induction l with
  | nil =>
    intro a
    exact ⟨a, rfl, Or.inl rfl, le_refl _, by simp⟩
  | cons b l ih =>
    intro a
    rw [List.foldl_cons]
    by_cases hab : a.active_until < b.active_until
    · have hs : latestStep (some a) b = some b := by
        show (if a.active_until < b.active_until then some b else some a) = some b
        rw [if_pos hab]
      rw [hs]
      obtain ⟨m, hm, hmem, hle, hall⟩ := ih b
      refine ⟨m, hm, ?_, le_trans (le_of_lt hab) hle, ?_⟩
      · rcases hmem with h | h
        · exact Or.inr (h ▸ List.mem_cons_self b l)
        · exact Or.inr (List.mem_cons_of_mem b h)
      · intro c hc
        rcases List.mem_cons.mp hc with h | h
        · exact h ▸ hle
        · exact hall c h
    · have hs : latestStep (some a) b = some a := by
        show (if a.active_until < b.active_until then some b else some a) = some a
        rw [if_neg hab]
      rw [hs]
      obtain ⟨m, hm, hmem, hle, hall⟩ := ih a
      refine ⟨m, hm, ?_, hle, ?_⟩
      · rcases hmem with h | h
        · exact Or.inl h
        · exact Or.inr (List.mem_cons_of_mem b h)
      · intro c hc
        rcases List.mem_cons.mp hc with h | h
        · exact h ▸ le_trans (not_lt.mp hab) hle
        · exact hall c h

/-- Folding `latestStep` from `none` over a nonempty list yields a member
dominating every element; over `[]` it yields `none`. -/
theorem latestStep_foldl_none (l : List BoostRow) (hne : l ≠ []) :
    ∃ m, l.foldl latestStep none = some m ∧ m ∈ l ∧
      ∀ c ∈ l, c.active_until ≤ m.active_until := by
  match l, hne with
  | b :: l, _ =>
    rw [List.foldl_cons]
    have hs : latestStep none b = some b := rfl
    rw [hs]
    obtain ⟨m, hm, hmem, hle, hall⟩ := latestStep_foldl_some l b
    refine ⟨m, hm, ?_, ?_⟩
    · rcases hmem with h | h
      · exact h ▸ List.mem_cons_self b l
      · exact List.mem_cons_of_mem b h
    · intro c hc
      rcases List.mem_cons.mp hc with h | h
      · exact h ▸ hle
      · exact hall c h

/-- C7: active-boost answers 404 when the user has no boost row that is
still unexpired; otherwise the returned row belongs to the user, is
unexpired, is reported as `(boost_type, active_until)` with status 200, and
its `active_until` is maximal among the user's unexpired rows (so after two
purchases with different durations the later one is returned). -/
theorem activeBoost_returns_latest_unexpired (st : Store) (now : Int) (uid : String) :
    ((∀ b ∈ st.boosts, b.user_id = uid → b.active_until ≤ now) →
      activeBoostHandler st now uid = (404, none)) ∧
    (∀ b, activeBoostQuery st now uid = some b →
      b ∈ st.boosts ∧ b.user_id = uid ∧ now < b.active_until ∧
      activeBoostHandler st now uid = (200, some (b.boost_type, b.active_until)) ∧
      ∀ c ∈ st.boosts, c.user_id = uid → now < c.active_until →
        c.active_until ≤ b.active_until) ∧
    ((∃ b ∈ st.boosts, b.user_id = uid ∧ now < b.active_until) →
      ∃ b, activeBoostQuery st now uid = some b) := by
  refine ⟨?_, ?_, ?_⟩
  · intro h
    have hfil : st.boosts.filter (fun b => b.user_id == uid && decide (now < b.active_until))
        = [] := by
      rw [List.filter_eq_nil_iff]
      intro b hb
      simp only [Bool.and_eq_true, beq_iff_eq, decide_eq_true_eq, not_and]
      intro hid
      exact not_lt.mpr (h b hb hid)
    unfold activeBoostHandler activeBoostQuery
    rw [hfil]
    rfl
  · intro b hb
    by_cases hnil :
        st.boosts.filter (fun c => c.user_id == uid && decide (now < c.active_until)) = []
    · exfalso
      unfold activeBoostQuery at hb
      rw [hnil] at hb
      exact Option.noConfusion hb
    · obtain ⟨m, hm, hmem, hall⟩ := latestStep_foldl_none _ hnil
      have hq : activeBoostQuery st now uid = some m := hm
      have hbm : b = m := by
        rw [hq] at hb
        exact (Option.some.inj hb).symm
      subst hbm
      obtain ⟨hmemb, hpred⟩ := List.mem_filter.mp hmem
      simp only [Bool.and_eq_true, beq_iff_eq, decide_eq_true_eq] at hpred
      refine ⟨hmemb, hpred.1, hpred.2, ?_, ?_⟩
      · unfold activeBoostHandler
        rw [hq]
      · intro c hc hcid hclt
        exact hall c (List.mem_filter.mpr ⟨hc, by simp [hcid, hclt]⟩)
  · rintro ⟨b, hb, hid, hlt⟩
    have hmemf : b ∈ st.boosts.filter
        (fun c => c.user_id == uid && decide (now < c.active_until)) :=
      List.mem_filter.mpr ⟨hb, by simp [hid, hlt]⟩
    obtain ⟨m, hm, -, -⟩ := latestStep_foldl_none _ (List.ne_nil_of_mem hmemf)
    exact ⟨m, hm⟩

/-- C8: a userId with no row answers 404 on `GET /api/user/:userId`; after
one successful register of that id, the same GET answers 200 with the row
carrying the id, the stored username and the default counters
`total_clicks = 0`, `total_tokens = 0`. -/
theorem getUser_404_then_default_counters
    (st : Store) (uid : String) (un : Option String)
    (huid : uid ≠ "") (habsent : findUser st uid = none) :
    getUserHandler st uid = (404, none) ∧
    (register st (some uid) un).1 = 200 ∧
    getUserHandler (register st (some uid) un).2 uid =
      (200, some { id := uid, username := normUsername un,
                   total_clicks := 0, total_tokens := 0 }) := by
  have hbequ := beq_empty_false uid huid
  have habsent' : st.users.find? (fun w => w.id == uid) = none := habsent
  have hnew :
      [(⟨uid, normUsername un, 0, 0⟩ : UserRow)].find? (fun w => w.id == uid)
        = some (⟨uid, normUsername un, 0, 0⟩ : UserRow) := by
    rw [List.find?_cons]
    simp
  have hanyf : st.users.any (fun w => w.id == uid) = false :=
    List.any_eq_false.mpr (List.find?_eq_none.mp habsent')
  have hups : upsertUser st.users uid (normUsername un)
      = st.users ++ [(⟨uid, normUsername un, 0, 0⟩ : UserRow)] := by
    unfold upsertUser
    rw [if_neg (by rw [hanyf]; exact Bool.false_ne_true)]
  have hreg : register st (some uid) un
      = (200, { st with users := st.users ++ [(⟨uid, normUsername un, 0, 0⟩ : UserRow)] }) := by
    simp only [register, hbequ, Bool.false_eq_true, if_false, hups]
  have hfindnew : findUser (register st (some uid) un).2 uid
      = some (⟨uid, normUsername un, 0, 0⟩ : UserRow) := by
    show ((register st (some uid) un).2).users.find? (fun w => w.id == uid) = _
    rw [hreg]
    show (st.users ++ _).find? _ = _
    rw [List.find?_append, habsent', hnew]
    rfl
  refine ⟨?_, by rw [hreg], ?_⟩
  · unfold getUserHandler
    rw [habsent]
  · unfold getUserHandler
    rw [hfindnew]

/-! ### Concrete witnesses -/

/-- Witness for C1 at `demoStore`. -/
theorem register_existing_updates_only_username_witness :
    ("u1" : String) ≠ "" ∧ ("bob" : String) ≠ "" ∧
    findUser demoStore "u1" = some demoRow ∧
    findUser (register demoStore (some "u1") (some "bob")).2 "u1"
      = some { demoRow with username := some "bob" } :=
  ⟨by decide, by decide, by decide,
    (register_existing_updates_only_username demoStore "u1" "bob" demoRow
      (by decide) (by decide) (by decide)).2.1⟩

/-- Witness for C9 at `demoStore`. -/
theorem register_falsy_username_overwrites_with_null_witness :
    ("u1" : String) ≠ "" ∧ findUser demoStore "u1" = some demoRow ∧
    findUser (register demoStore (some "u1") none).2 "u1"
      = some { demoRow with username := none } :=
  ⟨by decide, by decide,
    (register_falsy_username_overwrites_with_null demoStore "u1" demoRow none
      (by decide) (Or.inl rfl) (by decide)).2⟩

/-- Witness for C2 at `demoStore`. -/
theorem click_adds_reward_no_existence_check_witness :
    ("u1" : String) ≠ "" ∧ ((5 : Int) ≠ 0) ∧
    findUser demoStore "u1" = some demoRow ∧
    findUser (click demoStore (some "u1") (some 5)).2 "u1"
      = some { demoRow with
               total_clicks := demoRow.total_clicks + 1,
               total_tokens := demoRow.total_tokens + 5 } :=
  ⟨by decide, by decide, by decide,
    ((click_adds_reward_no_existence_check demoStore "u1" 5
      (by decide) (by decide)).2.1 demoRow (by decide)).1⟩

/-- Witness for C3 at `demoStore`. -/
theorem claimTokens_balance_check_witness :
    ("u1" : String) ≠ "" ∧ ((5 : Int) ≠ 0) ∧
    findUser demoStore "u1" = some demoRow ∧ (5 : Int) ≤ demoRow.total_tokens ∧
    (claimTokens demoStore (some "u1") (some 5)).1 = 200 :=
  ⟨by decide, by decide, by decide, by decide,
    (((claimTokens_balance_check demoStore "u1" 5 (by decide) (by decide)).2
      demoRow (by decide)).2.1 (by decide)).1⟩

/-- Witness for C5 at `demoStore`. -/
theorem buyBoost_deducts_price_and_inserts_one_boost_witness :
    findUser demoStore "u1" = some demoRow ∧ (5 : Int) ≤ demoRow.total_tokens ∧
    (buyBoost demoStore 0 (some "u1") (some "mega") (some 5) (some 2)).1 = 200 ∧
    (buyBoost demoStore 0 (some "u1") (some "mega") (some 5) (some 2)).2.1
      = some (0 + 2 * 3600000) :=
  ⟨by decide, by decide,
    (buyBoost_deducts_price_and_inserts_one_boost demoStore 0 "u1" "mega" 5 2 demoRow
      (by decide) (by decide) (by decide) (by decide) (by decide) (by decide)).1,
    (buyBoost_deducts_price_and_inserts_one_boost demoStore 0 "u1" "mega" 5 2 demoRow
      (by decide) (by decide) (by decide) (by decide) (by decide) (by decide)).2.1⟩

/-- Witness for C6: `clickReward = 0` is rejected with 400, store unchanged. -/
theorem falsy_required_fields_rejected_with_400_witness :
    truthyInt (some (0 : Int)) = false ∧
    click demoStore (some "u1") (some 0) = (400, demoStore) :=
  ⟨rfl, (falsy_required_fields_rejected_with_400 demoStore 0 (some "u1") (some "b")
    (some 0) (some 0) (some 0) (some 0)).1 (Or.inr rfl)⟩

/-- Witness for C7 at `demoStore`, time 60: of the two boosts, the expired
gold one is skipped and the later silver one is returned. -/
theorem activeBoost_returns_latest_unexpired_witness :
    activeBoostQuery demoStore 60 "u1" = some ⟨2, "u1", "silver", 100⟩ ∧
    activeBoostHandler demoStore 60 "u1" = (200, some ("silver", 100)) :=
  ⟨by decide,
    ((activeBoost_returns_latest_unexpired demoStore 60 "u1").2.1
      ⟨2, "u1", "silver", 100⟩ (by decide)).2.2.2.1⟩

/-- Witness for C8 starting from the empty store. -/
theorem getUser_404_then_default_counters_witness :
    ("u2" : String) ≠ "" ∧ findUser Store.empty "u2" = none ∧
    getUserHandler Store.empty "u2" = (404, none) ∧
    getUserHandler (register Store.empty (some "u2") (some "zoe")).2 "u2"
      = (200, some ⟨"u2", normUsername (some "zoe"), 0, 0⟩) :=
  ⟨by decide, rfl,
    (getUser_404_then_default_counters Store.empty "u2" (some "zoe") (by decide) rfl).1,
    (getUser_404_then_default_counters Store.empty "u2" (some "zoe") (by decide) rfl).2.2⟩

/-- Witness for C10 at `demoStore` with `tokens = -5`. -/
theorem negative_amounts_break_balance_invariant_witness :
    ("u1" : String) ≠ "" ∧ ((-5 : Int) < 0) ∧ ((-3 : Int) < 0) ∧
    findUser demoStore "u1" = some demoRow ∧ (0 : Int) ≤ demoRow.total_tokens ∧
    (claimTokens demoStore (some "u1") (some (-5))).1 = 200 ∧
    demoRow.total_tokens < demoRow.total_tokens + (-(-5 : Int)) :=
  ⟨by decide, by decide, by decide, by decide, by decide,
    (negative_amounts_break_balance_invariant demoStore "u1" (-5) (-3) demoRow
      (by decide) (by decide) (by decide) (by decide) (by decide)).1.1,
    (negative_amounts_break_balance_invariant demoStore "u1" (-5) (-3) demoRow
      (by decide) (by decide) (by decide) (by decide) (by decide)).1.2.2⟩
